import Mathlib

/-!
Verification of the go-k8s-watcher multi-kind watch engine.

This file is a shallow embedding, in Lean 4, of the watcher package of the
repository: the kind/resource mapper (getResourceNameFromKind,
toLowerCamelCase, SplitAPIVersion), the event normalizer (handleEvent and
its per-loop version cache), the per-kind watch loop's reconnect/backoff
control flow (startResourceWatcher's goroutine), and the supervisor
lifecycle operations (Start, Stop, IsWatching).

Modelling conventions:
- Go strings are Lean Strings.  The source only manipulates ASCII
  identifiers (Kubernetes kind names, api versions, namespaces, names),
  for which Go's byte-level operations coincide with character-level ones.
- A Go map[string]string is embedded as a function String -> Option String;
  a missing key reads as none, and Go's zero-value read of a missing key
  is Option.getD with the empty string.
- Each per-kind goroutine owns its state (retry counter, version cache);
  it is embedded as a pure function of the sequence of external outcomes
  (open-attempt results, channel reads) that the goroutine consumes, which
  makes the full isolation between loops hold by construction.
-/

namespace K8sWatcher

/-! ## Kind/Resource mapper (helper functions of the watcher package) -/

/-- The static kind-to-plural table built inside getResourceNameFromKind.
The Go map literal has pairwise distinct keys, so an association list with
first-match lookup has the same lookup behaviour. -/
def kindToResource : List (Prod String String) :=
  [(("Pod"), ("pods")),
   (("Deployment"), ("deployments")),
   (("Service"), ("services")),
   (("ConfigMap"), ("configmaps")),
   (("Secret"), ("secrets")),
   (("Namespace"), ("namespaces")),
   (("Node"), ("nodes")),
   (("PersistentVolume"), ("persistentvolumes")),
   (("PersistentVolumeClaim"), ("persistentvolumeclaims")),
   (("Ingress"), ("ingresses")),
   (("Job"), ("jobs")),
   (("CronJob"), ("cronjobs")),
   (("StatefulSet"), ("statefulsets")),
   (("DaemonSet"), ("daemonsets")),
   (("ServiceAccount"), ("serviceaccounts")),
   (("Role"), ("roles")),
   (("RoleBinding"), ("rolebindings")),
   (("ClusterRole"), ("clusterroles")),
   (("ClusterRoleBinding"), ("clusterrolebindings")),
   (("CustomResourceDefinition"), ("customresourcedefinitions"))]

/-- toLowerCamelCase: empty string is returned as is; otherwise the first
character is lowercased and the rest kept.  (Go operates on the first byte;
for the ASCII kind names in scope this is the first character.) -/
def toLowerCamelCase (s : String) : String :=
  match s.data with
  | [] => s
  | c :: cs => String.mk (Char.toLower c :: cs)

/-- getResourceNameFromKind: table lookup, with the lowercase-plus-s
fallback for unknown kinds. -/
def getResourceNameFromKind (kind : String) : String :=
  match kindToResource.lookup kind with
  | some resource => resource
  | none => String.append (toLowerCamelCase kind) ("s")

/-- Splits a character list at the first slash, mirroring
strings.Index(apiVersion, "/") followed by the two slices: none when no
slash occurs, otherwise the part before the first slash and the part
after it. -/
def splitFirstSlash : List Char → Option (Prod (List Char) (List Char))
  | [] => none
  | c :: cs =>
    if c = '/' then some ([], cs)
    else
      match splitFirstSlash cs with
      | none => none
      | some (g, v) => some (c :: g, v)

/-- SplitAPIVersion: the exact string "v1" maps to empty group; a string
containing a slash is split at the first slash into (group, version); any
other string is a bare version with empty group. -/
def SplitAPIVersion (apiVersion : String) : Prod String String :=
  if apiVersion = ("v1") then (("" : String), apiVersion)
  else
    match splitFirstSlash apiVersion.data with
    | some (g, v) => (String.mk g, String.mk v)
    | none => (("" : String), apiVersion)

/-! ### Facts about the mapper -/

theorem splitFirstSlash_of_no_slash (l : List Char) (h : '/' ∉ l) :
    splitFirstSlash l = none := by
  induction l with
  | nil => rfl
  | cons c cs ih =>
    have hc : c ≠ '/' := fun hc => h (hc ▸ List.mem_cons_self c cs)
    have hcs : '/' ∉ cs := fun hm => h (List.mem_cons_of_mem c hm)
    simp [splitFirstSlash, hc, ih hcs]

theorem splitFirstSlash_append (g v : List Char) (h : '/' ∉ g) :
    splitFirstSlash (g ++ '/' :: v) = some (g, v) := by
  induction g with
  | nil => simp [splitFirstSlash]
  | cons c cs ih =>
    have hc : c ≠ '/' := fun hc => h (hc ▸ List.mem_cons_self c cs)
    have hcs : '/' ∉ cs := fun hm => h (List.mem_cons_of_mem c hm)
    simp [splitFirstSlash, hc, ih hcs]

theorem string_append_data (a b : String) :
    (a ++ b).data = a.data ++ b.data := rfl

/-- Claim C7: SplitAPIVersion is total and returns ("", "v1") for the exact
input "v1"; for any string containing a slash it splits at the first slash
into (group, version); any other string s yields ("", s).  Totality is by
construction (it is a Lean function); the three cases are proved below. -/
theorem splitAPIVersion_total_spec :
    (SplitAPIVersion ("v1") = (("" : String), ("v1" : String)))
    ∧ (∀ g v : String, '/' ∉ g.data →
        SplitAPIVersion (g ++ ("/") ++ v) = (g, v))
    ∧ (∀ s : String, '/' ∉ s.data → SplitAPIVersion s = (("" : String), s)) := by
  refine ⟨by decide, ?_, ?_⟩
  · intro g v h
    have hdata : (g ++ ("/") ++ v).data = g.data ++ '/' :: v.data := by
      rw [string_append_data, string_append_data]
      simp
    have hne : (g ++ ("/") ++ v) ≠ ("v1") := by
      intro he
      have hm : '/' ∈ (("v1" : String)).data := by
        rw [← he, hdata]
        simp
      simp at hm
    simp only [SplitAPIVersion, if_neg hne, hdata,
      splitFirstSlash_append g.data v.data h]
  · intro s h
    by_cases hs : s = ("v1")
    · subst hs
      decide
    · simp [SplitAPIVersion, hs, splitFirstSlash_of_no_slash s.data h]

/-- Witness for C7 at the spec's own examples: the group "apps" contains no
slash, and splitting "apps" ++ "/" ++ "v1" (the string "apps/v1") yields
("apps", "v1"). -/
theorem splitAPIVersion_total_spec_check :
    ('/' ∉ (("apps" : String)).data)
    ∧ ((("apps" : String) ++ ("/") ++ ("v1" : String)) = ("apps/v1"))
    ∧ (SplitAPIVersion (("apps" : String) ++ ("/") ++ ("v1" : String))
        = (("apps"), ("v1"))) :=
  ⟨by decide, by decide,
   splitAPIVersion_total_spec.2.1 ("apps") ("v1") (by decide)⟩

/-- Claim C8: getResourceNameFromKind returns the static-table plural for
every kind in the table (in particular Pod and CustomResourceDefinition),
and for every kind not in the table it returns the kind with its first
character lowercased and "s" appended (in particular Widget). -/
theorem resourceName_table_and_fallback :
    (∀ k r : String, (k, r) ∈ kindToResource → getResourceNameFromKind k = r)
    ∧ (∀ k : String, kindToResource.lookup k = none →
        getResourceNameFromKind k = String.append (toLowerCamelCase k) ("s"))
    ∧ (∀ c : Char, ∀ cs : List Char,
        toLowerCamelCase (String.mk (c :: cs)) = String.mk (Char.toLower c :: cs))
    ∧ (getResourceNameFromKind ("Pod") = ("pods"))
    ∧ (getResourceNameFromKind ("CustomResourceDefinition")
        = ("customresourcedefinitions"))
    ∧ (getResourceNameFromKind ("Widget") = ("widgets")) := by
  refine ⟨?_, ?_, fun c cs => rfl, by decide, by decide, by decide⟩
  · intro k r h
    fin_cases h <;> decide
  · intro k h
    simp [getResourceNameFromKind, h]

/-- Witness for C8: the table hypothesis holds at ("Pod", "pods") and the
fallback hypothesis holds at "Widget", and the theorem yields the expected
plurals there. -/
theorem resourceName_table_and_fallback_check :
    (((("Pod"), ("pods")) : Prod String String) ∈ kindToResource)
    ∧ (kindToResource.lookup ("Widget") = none)
    ∧ (getResourceNameFromKind ("Pod") = ("pods"))
    ∧ (getResourceNameFromKind ("Widget")
        = String.append (toLowerCamelCase ("Widget")) ("s")) :=
  ⟨by decide, by decide,
   resourceName_table_and_fallback.1 ("Pod") ("pods") (by decide),
   resourceName_table_and_fallback.2.1 ("Widget") (by decide)⟩

/-! ## Event normalizer (handleEvent) and the per-loop version cache -/

/-- The four raw event types handled by handleEvent's switch (the watch
package's ADDED, MODIFIED, DELETED, ERROR). -/
inductive EventType
  | added
  | modified
  | deleted
  | error
deriving DecidableEq

/-- The dynamic type of event.Object as far as handleEvent inspects it:
an *unstructured.Unstructured (whose metadata fields name, namespace and
resourceVersion are read with NestedString, degrading to "" when absent —
so arbitrary strings model them), a *metav1.Status carrying a message, or
any other runtime object. -/
inductive EventObject
  | unstructuredObj (name ns resourceVersion : String)
  | statusObj (message : String)
  | otherObj
deriving DecidableEq

/-- A raw event from the watch channel: watch.Event is a type tag plus a
runtime object. -/
structure RawEvent where
  type : EventType
  obj : EventObject
deriving DecidableEq

/-- The fields of the normalized ResourceEvent that handleEvent computes
per event (the ResourceToWatch descriptor and the raw payload are copied
through unchanged and are not modelled).  errMsg models the Error field:
none when unset, some of the message text otherwise. -/
structure ResourceEvent where
  type : EventType
  name : String
  ns : String
  resourceVersion : String
  previousResourceVersion : String
  errMsg : Option String
deriving DecidableEq

/-- The per-loop resourceVersions map[string]string, embedded as a
function from keys to Option String; none models a key absent from the
map. -/
def VersionCache : Type := String → Option String

/-- The fresh empty map made at the top of each watch goroutine. -/
def emptyCache : VersionCache := fun _ => none

/-- Go map assignment resourceVersions[key] = v. -/
def cacheInsert (c : VersionCache) (key v : String) : VersionCache :=
  fun q => if q = key then some v else c q

/-- Go delete(resourceVersions, key). -/
def cacheErase (c : VersionCache) (key : String) : VersionCache :=
  fun q => if q = key then none else c q

/-- The resource key fmt.Sprintf of namespace, a slash and name. -/
def mkKey (ns name : String) : String :=
  String.append (String.append ns ("/")) name

/-- Outcome of one handleEvent call: the updated cache, and the
ResourceEvent passed to the handler — none when handleEvent returned early
at the failed *unstructured.Unstructured type assertion, before the
switch, so that the handler is never invoked. -/
structure HandleResult where
  cache : VersionCache
  emitted : Option ResourceEvent

/-- handleEvent: the event.Object type assertion, metadata extraction,
the switch over the event type updating the version cache, and the final
handler invocation.  Note that the Error case's assertion of event.Object
to *metav1.Status can only succeed if the object was not an
*unstructured.Unstructured, which the early return has already excluded,
so the branch that wraps status.Message is unreachable and a delivered
Error event always carries the fallback message. -/
def handleEvent (event : RawEvent) (resourceVersions : VersionCache) :
    HandleResult :=
  match event.obj with
  | EventObject.statusObj _ => { cache := resourceVersions, emitted := none }
  | EventObject.otherObj => { cache := resourceVersions, emitted := none }
  | EventObject.unstructuredObj name ns resourceVersion =>
    let resourceKey := mkKey ns name
    match event.type with
    | EventType.added =>
      { cache := cacheInsert resourceVersions resourceKey resourceVersion
        emitted := some
          { type := EventType.added, name := name, ns := ns
            resourceVersion := resourceVersion
            previousResourceVersion := ("")
            errMsg := none } }
    | EventType.modified =>
      { cache := cacheInsert resourceVersions resourceKey resourceVersion
        emitted := some
          { type := EventType.modified, name := name, ns := ns
            resourceVersion := resourceVersion
            previousResourceVersion :=
              Option.getD (resourceVersions resourceKey) ("")
            errMsg := none } }
    | EventType.deleted =>
      { cache := cacheErase resourceVersions resourceKey
        emitted := some
          { type := EventType.deleted, name := name, ns := ns
            resourceVersion := resourceVersion
            previousResourceVersion := ("")
            errMsg := none } }
    | EventType.error =>
      { cache := resourceVersions
        emitted := some
          { type := EventType.error, name := name, ns := ns
            resourceVersion := resourceVersion
            previousResourceVersion := ("")
            errMsg := some ("unknown error event") } }

/-- Processing a whole sequence of raw events through one loop's
handleEvent, threading the version cache. -/
def processEvents (events : List RawEvent) (c : VersionCache) :
    VersionCache :=
  events.foldl (fun cache e => (handleEvent e cache).cache) c

/-- Whether a raw event mutates the cache entry of key k: it must carry an
unstructured object whose namespace/name key is k and be of a type other
than Error (the Error case leaves the cache untouched, and non-unstructured
objects are dropped before the switch). -/
def isMutatingFor (k : String) (e : RawEvent) : Bool :=
  match e.obj with
  | EventObject.unstructuredObj name ns _ =>
    (mkKey ns name = k : Bool) && (e.type ≠ EventType.error : Bool)
  | _ => false

/-- The most recent event in the sequence that mutates key k. -/
def lastMutating (k : String) (events : List RawEvent) : Option RawEvent :=
  (events.filter (isMutatingFor k)).getLast?

/-- The cache entry a single mutating event leaves behind for its own key:
the version token for Added and Modified, nothing for Deleted. -/
def versionOf (e : RawEvent) : Option String :=
  match e.type, e.obj with
  | EventType.added, EventObject.unstructuredObj _ _ rv => some rv
  | EventType.modified, EventObject.unstructuredObj _ _ rv => some rv
  | _, _ => none

theorem processEvents_append (l1 l2 : List RawEvent) (c : VersionCache) :
    processEvents (l1 ++ l2) c = processEvents l2 (processEvents l1 c) := by
  simp [processEvents, List.foldl_append]

theorem lastMutating_append_one (k : String) (l : List RawEvent)
    (e : RawEvent) :
    lastMutating k (l ++ [e])
      = if isMutatingFor k e then some e else lastMutating k l := by
  by_cases hm : isMutatingFor k e
  · simp [lastMutating, List.filter_append, hm]
  · simp [lastMutating, List.filter_append, hm]

theorem handleEvent_cache_not_mutating (e : RawEvent) (c : VersionCache)
    (k : String) (h : isMutatingFor k e = false) :
    (handleEvent e c).cache k = c k := by
  obtain ⟨t, obj⟩ := e
  cases obj with
  | statusObj m => rfl
  | otherObj => rfl
  | unstructuredObj n ns rv =>
    simp only [isMutatingFor, Bool.and_eq_false_iff,
      decide_eq_false_iff_not] at h
    cases t with
    | error => rfl
    | added =>
      have hk : k ≠ mkKey ns n := by
        rcases h with h | h
        · exact fun hkk => h hkk.symm
        · simp at h
      show (if k = mkKey ns n then some rv else c k) = c k
      rw [if_neg hk]
    | modified =>
      have hk : k ≠ mkKey ns n := by
        rcases h with h | h
        · exact fun hkk => h hkk.symm
        · simp at h
      show (if k = mkKey ns n then some rv else c k) = c k
      rw [if_neg hk]
    | deleted =>
      have hk : k ≠ mkKey ns n := by
        rcases h with h | h
        · exact fun hkk => h hkk.symm
        · simp at h
      show (if k = mkKey ns n then none else c k) = c k
      rw [if_neg hk]

theorem handleEvent_cache_self (n ns rv : String) (t : EventType)
    (c : VersionCache) (ht : t ≠ EventType.error) :
    (handleEvent (RawEvent.mk t (EventObject.unstructuredObj n ns rv))
        c).cache (mkKey ns n)
      = versionOf (RawEvent.mk t (EventObject.unstructuredObj n ns rv)) := by
  cases t with
  | error => exact absurd rfl ht
  | added => simp [handleEvent, cacheInsert, versionOf]
  | modified => simp [handleEvent, cacheInsert, versionOf]
  | deleted => simp [handleEvent, cacheErase, versionOf]

/-- Claim C2: for every sequence of raw events processed by one loop from
its fresh (empty) cache, the cache entry for a key k is exactly determined
by the most recent cache-mutating event for k: it is that event's version
token when the event was Added or Modified, and absent when it was Deleted
or when no such event occurred (never observed); and Error events leave
the cache unchanged (second conjunct), so they are transparent to the
"most recent" reading. -/
theorem version_cache_last_event :
    (∀ events : List RawEvent, ∀ k : String,
      processEvents events emptyCache k
        = Option.bind (lastMutating k events) versionOf)
    ∧ (∀ e : RawEvent, ∀ c : VersionCache,
        e.type = EventType.error → (handleEvent e c).cache = c) := by
  constructor
  · intro events k
    induction events using List.reverseRecOn with
    | nil => rfl
    | append_singleton l e ih =>
      rw [processEvents_append, lastMutating_append_one]
      by_cases hm : isMutatingFor k e
      · obtain ⟨t, obj⟩ := e
        cases obj with
        | statusObj m => simp [isMutatingFor] at hm
        | otherObj => simp [isMutatingFor] at hm
        | unstructuredObj n ns rv =>
          simp only [isMutatingFor, Bool.and_eq_true,
            decide_eq_true_eq] at hm
          obtain ⟨hk, ht⟩ := hm
          subst hk
          have hstep :
              processEvents [RawEvent.mk t
                  (EventObject.unstructuredObj n ns rv)]
                (processEvents l emptyCache) (mkKey ns n)
              = versionOf (RawEvent.mk t
                  (EventObject.unstructuredObj n ns rv)) :=
            handleEvent_cache_self n ns rv t _ ht
          rw [hstep]
          simp [isMutatingFor, ht]
      · have hm' : isMutatingFor k e = false := by
          simpa using hm
        have hstep :
            processEvents [e] (processEvents l emptyCache) k
              = processEvents l emptyCache k :=
          handleEvent_cache_not_mutating e _ k hm'
        rw [hstep, ih]
        simp [hm']
  · intro e c h
    obtain ⟨t, obj⟩ := e
    cases obj with
    | statusObj m => rfl
    | otherObj => rfl
    | unstructuredObj n ns rv =>
      simp only at h
      subst h
      rfl

/-- Witness for C2: the error-transparency conjunct applied to a concrete
Error event, and the main equation applied to a concrete four-event
sequence (Added, Modified, Deleted for one identity, with an interleaved
Error), checking the resulting cache value by evaluation. -/
theorem version_cache_last_event_check :
    ((RawEvent.mk EventType.error (EventObject.statusObj ("boom"))).type
        = EventType.error)
    ∧ ((handleEvent
          (RawEvent.mk EventType.error (EventObject.statusObj ("boom")))
          emptyCache).cache = emptyCache)
    ∧ (processEvents
        [RawEvent.mk EventType.added
          (EventObject.unstructuredObj ("web") ("default") ("1")),
         RawEvent.mk EventType.error (EventObject.statusObj ("hiccup")),
         RawEvent.mk EventType.modified
          (EventObject.unstructuredObj ("web") ("default") ("2"))]
        emptyCache (mkKey ("default") ("web"))
        = Option.bind
            (lastMutating (mkKey ("default") ("web"))
              [RawEvent.mk EventType.added
                (EventObject.unstructuredObj ("web") ("default") ("1")),
               RawEvent.mk EventType.error
                (EventObject.statusObj ("hiccup")),
               RawEvent.mk EventType.modified
                (EventObject.unstructuredObj ("web") ("default") ("2"))])
            versionOf) :=
  ⟨rfl, version_cache_last_event.2 _ _ rfl, version_cache_last_event.1 _ _⟩

/-- Claim C4 (code bug): an Error raw event whose object is the
server-supplied *metav1.Status is dropped by handleEvent — the initial
type assertion to *unstructured.Unstructured fails, so the function
returns before the switch, the handler is never invoked and no error
detail is wrapped; the only Error events that reach the handler are those
with an unstructured object, and they always carry the fallback message
"unknown error event", never the server-supplied detail. -/
theorem error_status_event_dropped :
    (handleEvent
        (RawEvent.mk EventType.error
          (EventObject.statusObj ("watch failed")))
        emptyCache
      = { cache := emptyCache, emitted := none })
    ∧ ((handleEvent
          (RawEvent.mk EventType.error
            (EventObject.unstructuredObj ("web") ("default") ("7")))
          emptyCache).emitted
        = some
          { type := EventType.error, name := ("web"), ns := ("default")
            resourceVersion := ("7"), previousResourceVersion := ("")
            errMsg := some ("unknown error event") }) :=
  ⟨rfl, rfl⟩

/-- Claim C5: a Modified event's previous-version-token is exactly the
cache entry for its identity before processing (Go's zero-value read:
empty string when absent), and afterwards the cache holds the new token;
in particular a Modified immediately after an Added for the same identity
carries the Added's token, and a Modified for a never-observed identity
(fresh cache) carries the empty string. -/
theorem modified_previous_version :
    (∀ n ns rv : String, ∀ c : VersionCache,
      handleEvent
        (RawEvent.mk EventType.modified
          (EventObject.unstructuredObj n ns rv)) c
      = { cache := cacheInsert c (mkKey ns n) rv
          emitted := some
            { type := EventType.modified, name := n, ns := ns
              resourceVersion := rv
              previousResourceVersion :=
                Option.getD (c (mkKey ns n)) ("")
              errMsg := none } })
    ∧ (∀ n ns rv : String, ∀ c : VersionCache,
        (handleEvent
          (RawEvent.mk EventType.modified
            (EventObject.unstructuredObj n ns rv)) c).cache (mkKey ns n)
        = some rv)
    ∧ (∀ n ns t rv : String, ∀ c : VersionCache,
        (handleEvent
          (RawEvent.mk EventType.modified
            (EventObject.unstructuredObj n ns rv))
          ((handleEvent
            (RawEvent.mk EventType.added
              (EventObject.unstructuredObj n ns t)) c).cache)).emitted
        = some
          { type := EventType.modified, name := n, ns := ns
            resourceVersion := rv, previousResourceVersion := t
            errMsg := none })
    ∧ (∀ n ns rv : String,
        (handleEvent
          (RawEvent.mk EventType.modified
            (EventObject.unstructuredObj n ns rv)) emptyCache).emitted
        = some
          { type := EventType.modified, name := n, ns := ns
            resourceVersion := rv, previousResourceVersion := ("")
            errMsg := none }) := by
  refine ⟨fun n ns rv c => rfl, ?_, ?_, fun n ns rv => rfl⟩
  · intro n ns rv c
    simp [handleEvent, cacheInsert]
  · intro n ns t rv c
    simp [handleEvent, cacheInsert]

/-! ## Per-kind watch loop: the open/retry part of startResourceWatcher

Each watch goroutine is modelled as a pure function of the sequence of
outcomes of its own consecutive subscription-open attempts; since a loop
reads only its own outcome sequence and its own retry counter, the retry
budgets of distinct loops are independent by construction. -/

/-- Outcome of one resourceInterface.Watch call as startResourceWatcher
distinguishes them: success, an error whose text contains "could not find
the requested resource", or any other error. -/
inductive OpenResult
  | ok
  | errNotFound
  | errOther
deriving DecidableEq

/-- How the open/retry loop left off after consuming a sequence of open
outcomes. -/
inductive LoopOutcome
  | gaveUp
  | skippedNotFound
  | watching
  | stillRetrying
deriving DecidableEq

/-- The observable trace of the open/retry loop: how it ended, how many
open attempts it made, and the list of backoff sleeps (in seconds) it
performed, in order. -/
structure OpenLoopTrace where
  outcome : LoopOutcome
  attempts : Nat
  sleeps : List Nat
deriving DecidableEq

/-- The error-handling block of startResourceWatcher's goroutine, run over
the outcomes of consecutive open attempts, threading the retries counter:
on an error it first checks retries > 5 and gives up, then checks the
not-found text and skips, else increments retries and sleeps 2*retries
seconds before the next attempt; on success it resets retries and enters
the event-consuming phase (watching). -/
def openLoopGo (retries attempts : Nat) (sleeps : List Nat) :
    List OpenResult → OpenLoopTrace
  | [] => { outcome := LoopOutcome.stillRetrying, attempts := attempts
            sleeps := sleeps }
  | r :: rest =>
    match r with
    | OpenResult.ok =>
      { outcome := LoopOutcome.watching, attempts := attempts + 1
        sleeps := sleeps }
    | OpenResult.errNotFound =>
      if retries > 5 then
        { outcome := LoopOutcome.gaveUp, attempts := attempts + 1
          sleeps := sleeps }
      else
        { outcome := LoopOutcome.skippedNotFound, attempts := attempts + 1
          sleeps := sleeps }
    | OpenResult.errOther =>
      if retries > 5 then
        { outcome := LoopOutcome.gaveUp, attempts := attempts + 1
          sleeps := sleeps }
      else
        openLoopGo (retries + 1) (attempts + 1)
          (sleeps ++ [2 * (retries + 1)]) rest

/-- The open/retry loop from its initial state (retries = 0, no attempts,
no sleeps). -/
def runOpenLoop (results : List OpenResult) : OpenLoopTrace :=
  openLoopGo 0 0 [] results

/-- Counterexample to claim C1 as stated: 6 consecutive retryable open
failures do NOT terminate the loop — after the 6th failure the retry
counter is only 6, the guard is retries > 5 checked before the increment,
so the loop has slept 6 times and is still going to re-attempt. -/
theorem six_failures_do_not_terminate :
    (runOpenLoop (List.replicate 6 OpenResult.errOther)
      = { outcome := LoopOutcome.stillRetrying, attempts := 6
          sleeps := [2, 4, 6, 8, 10, 12] })
    ∧ LoopOutcome.stillRetrying ≠ LoopOutcome.gaveUp := by
  exact ⟨by decide, by decide⟩

/-- Claim C1 amended: the loop terminates and reports failure at the first
open failure that finds the retry counter already above 5; since the guard
precedes the increment, 7 consecutive retryable failures (not 6) cause
termination, after exactly 6 retries (not 5) with linear backoff sleeps of
2, 4, 6, 8, 10, 12 seconds, regardless of what outcomes would follow. -/
theorem seven_failures_terminate :
    ∀ rest : List OpenResult,
      runOpenLoop (List.replicate 7 OpenResult.errOther ++ rest)
        = { outcome := LoopOutcome.gaveUp, attempts := 7
            sleeps := [2, 4, 6, 8, 10, 12] } := by
  intro rest
  rfl

/-- Claim C6: a loop whose first open attempt fails with the resource-
not-found error terminates permanently after exactly one attempt, with no
backoff sleep, regardless of what outcomes would follow; and since each
loop is a function of its own outcome sequence alone, no other loop's
retry budget is touched. -/
theorem not_found_terminates_first_attempt :
    ∀ rest : List OpenResult,
      runOpenLoop (OpenResult.errNotFound :: rest)
        = { outcome := LoopOutcome.skippedNotFound, attempts := 1
            sleeps := [] } := by
  intro rest
  rfl

/-! ## Per-kind watch loop: control states and the closed-channel path

The goroutine's control flow is modelled as a state machine consuming
stimuli.  A state is either the top of the outer loop (about to check
cancellation and attempt an open), the inner receive loop over an open
subscription, or returned.  Per the Go specification, the break statement
in the closed-channel case terminates only the innermost enclosing select,
not the surrounding for, so after the 1-second sleep control re-enters the
inner receive loop; no transition leads from the receive loop back to the
open step. -/

/-- A stimulus consumed by the goroutine: cancellation observed, an open
attempt's result (only meaningful at the top of the outer loop), or a
channel read delivering an event or reporting closure (only meaningful in
the inner receive loop).  A stimulus that cannot occur in the current
state leaves it unchanged. -/
inductive Stimulus
  | cancel
  | opened
  | openFailed (notFound : Bool)
  | chanClosed
  | chanEvent (e : RawEvent)
deriving DecidableEq

/-- Why the goroutine returned. -/
inductive StopReason
  | cancelled
  | gaveUp
  | notFound
deriving DecidableEq

/-- Control state of one watch goroutine. -/
inductive WState
  | opening (retries : Nat)
  | receiving (retries : Nat)
  | stopped (reason : StopReason)
deriving DecidableEq

/-- One control-flow step of startResourceWatcher's goroutine. -/
def wStep : WState → Stimulus → WState
  | WState.opening _, Stimulus.cancel => WState.stopped StopReason.cancelled
  | WState.opening _, Stimulus.opened => WState.receiving 0
  | WState.opening r, Stimulus.openFailed nf =>
    if r > 5 then WState.stopped StopReason.gaveUp
    else if nf then WState.stopped StopReason.notFound
    else WState.opening (r + 1)
  | WState.opening r, _ => WState.opening r
  | WState.receiving _, Stimulus.cancel =>
    WState.stopped StopReason.cancelled
  | WState.receiving r, Stimulus.chanClosed => WState.receiving r
  | WState.receiving r, Stimulus.chanEvent _ => WState.receiving r
  | WState.receiving r, _ => WState.receiving r
  | WState.stopped reason, _ => WState.stopped reason

/-- Running the goroutine's control flow over a list of stimuli. -/
def wRun (s : WState) (stims : List Stimulus) : WState :=
  stims.foldl wStep s

/-- Whether the goroutine is at the open step (top of the outer loop). -/
def atOpenStep : WState → Bool
  | WState.opening _ => true
  | _ => false

theorem wRun_stopped (reason : StopReason) (stims : List Stimulus) :
    wRun (WState.stopped reason) stims = WState.stopped reason := by
  induction stims with
  | nil => rfl
  | cons x rest ih => exact ih

theorem wRun_receiving (r : Nat) (stims : List Stimulus) :
    wRun (WState.receiving r) stims = WState.receiving r
      ∨ wRun (WState.receiving r) stims
          = WState.stopped StopReason.cancelled := by
  induction stims with
  | nil => exact Or.inl rfl
  | cons x rest ih =>
    cases x with
    | cancel =>
      exact Or.inr (wRun_stopped StopReason.cancelled rest)
    | opened => exact ih
    | openFailed nf => exact ih
    | chanClosed => exact ih
    | chanEvent e => exact ih

/-- Claim C3 (code bug): when the open subscription's channel closes
without cancellation, the goroutine does NOT return to the open step — the
break in the closed-channel select case only exits the select, so after
the 1-second sleep the inner receive loop runs again (and keeps re-reading
the closed channel); from the receive state no sequence of stimuli ever
reaches the open step, so no new subscription is ever opened. -/
theorem closed_channel_never_reopens :
    (wStep (WState.receiving 0) Stimulus.chanClosed = WState.receiving 0)
    ∧ (∀ stims : List Stimulus,
        atOpenStep (wRun (WState.receiving 0)
          (Stimulus.chanClosed :: stims)) = false) := by
  refine ⟨rfl, fun stims => ?_⟩
  have h := wRun_receiving 0 stims
  show atOpenStep (wRun (WState.receiving 0) stims) = false
  rcases h with h | h <;> rw [h] <;> rfl

/-! ## Watch supervisor lifecycle (K8sWatcher.Start / Stop / IsWatching)

The mutex-guarded supervisor fields are modelled as a record; each
operation is the state transformation the method performs under its lock,
together with its observable result. -/

/-- The supervisor fields the lifecycle methods touch: the watching flag,
whether the current stop channel has been closed, and the count of watch
goroutines registered with the activeWatchers wait group. -/
structure SupervisorState where
  watching : Bool
  stopClosed : Bool
  activeLoops : Nat
deriving DecidableEq

/-- IsWatching: a snapshot of the watching flag. -/
def IsWatching (s : SupervisorState) : Bool := s.watching

/-- Stop: an early no-op return when the watching flag is not set;
otherwise it closes the stop channel, clears the flag, and goes through
the bounded wait for the active watchers.  The Bool output records whether
the waiting path was taken. -/
def Stop (s : SupervisorState) : Prod SupervisorState Bool :=
  if s.watching = false then (s, false)
  else ({ s with stopClosed := true, watching := false }, true)

/-- Errors Start can return. -/
inductive StartError
  | alreadyRunning
  | discoveryFailed
deriving DecidableEq

/-- Start: under the lock, fail with AlreadyRunning if the flag is set;
otherwise set the flag and install a fresh (open) stop channel.  Then, in
watch-all mode, resolve the kind set by discovery — total discovery
failure returns the error with no rollback of the flag and no loops
spawned; on success one watcher per resolved kind is registered.  In
explicit mode the selected kinds are used directly.  discovered is none
for a total discovery failure, some k for a successful discovery of k
watchable kinds. -/
def Start (s : SupervisorState) (watchAll : Bool) (discovered : Option Nat)
    (selectedCount : Nat) : Prod SupervisorState (Option StartError) :=
  if s.watching then (s, some StartError.alreadyRunning)
  else
    let s1 : SupervisorState :=
      { s with watching := true, stopClosed := false }
    if watchAll then
      match discovered with
      | none => (s1, some StartError.discoveryFailed)
      | some k =>
        ({ s1 with activeLoops := s1.activeLoops + k }, none)
    else
      ({ s1 with activeLoops := s1.activeLoops + selectedCount }, none)

/-- Claim C9: Stop on a supervisor whose watching flag is not set (never
started) returns without taking the waiting path and leaves the whole
state — flag, stop channel, active-loop count — unchanged. -/
theorem stop_without_start_noop (s : SupervisorState)
    (h : s.watching = false) : Stop s = (s, false) := by
  simp [Stop, h]

/-- Witness for C9 at the initial supervisor state. -/
theorem stop_without_start_noop_check :
    ((SupervisorState.mk false false 0).watching = false)
    ∧ (Stop (SupervisorState.mk false false 0)
        = (SupervisorState.mk false false 0, false)) :=
  ⟨rfl, stop_without_start_noop (SupervisorState.mk false false 0) rfl⟩

/-- Claim C10: Start in watch-all mode under total discovery failure
returns the discovery error, but the watching flag was already set and is
not rolled back: afterwards IsWatching is true, no loop was spawned
(active-loop count unchanged), and any subsequent Start fails with
AlreadyRunning leaving the state unchanged. -/
theorem start_discovery_failure_leaves_watching (s : SupervisorState)
    (h : s.watching = false) :
    ((Start s true none 0).2 = some StartError.discoveryFailed)
    ∧ (IsWatching (Start s true none 0).1 = true)
    ∧ ((Start s true none 0).1.activeLoops = s.activeLoops)
    ∧ (∀ watchAll : Bool, ∀ discovered : Option Nat, ∀ sel : Nat,
        Start (Start s true none 0).1 watchAll discovered sel
          = ((Start s true none 0).1, some StartError.alreadyRunning)) := by
  refine ⟨?_, ?_, ?_, ?_⟩
  · simp [Start, h]
  · simp [Start, IsWatching, h]
  · simp [Start, h]
  · intro watchAll discovered sel
    simp [Start, h]

/-- Witness for C10 at the initial supervisor state, including one
concrete subsequent Start call. -/
theorem start_discovery_failure_leaves_watching_check :
    ((SupervisorState.mk false false 0).watching = false)
    ∧ ((Start (SupervisorState.mk false false 0) true none 0).2
        = some StartError.discoveryFailed)
    ∧ (IsWatching
        (Start (SupervisorState.mk false false 0) true none 0).1 = true)
    ∧ ((Start (SupervisorState.mk false false 0) true none 0).1.activeLoops
        = (SupervisorState.mk false false 0).activeLoops)
    ∧ (Start (Start (SupervisorState.mk false false 0) true none 0).1
          true (some 3) 0
        = ((Start (SupervisorState.mk false false 0) true none 0).1,
           some StartError.alreadyRunning)) :=
  ⟨rfl,
   (start_discovery_failure_leaves_watching
     (SupervisorState.mk false false 0) rfl).1,
   (start_discovery_failure_leaves_watching
     (SupervisorState.mk false false 0) rfl).2.1,
   (start_discovery_failure_leaves_watching
     (SupervisorState.mk false false 0) rfl).2.2.1,
   (start_discovery_failure_leaves_watching
     (SupervisorState.mk false false 0) rfl).2.2.2 true (some 3) 0⟩

end K8sWatcher
